import Mathlib

/-!
Shallow embedding of `src/llm_tools_clojure.py` (the `ClojureREPL` nREPL
client): port discovery, connection/session establishment, the
eval message-collection loop, the result formatter, close, and the
pattern-escaping helpers of `apropos` and `find_doc`.

Python strings are modelled as Lean `String`/`List Char`; dictionaries
written to the connection as association lists `List (String × PyVal)`
where `PyVal` distinguishes a string value from Python `None`; inbound
nREPL messages as a structure of optional fields (mirroring the
`"key" in response` / `response.get(key)` access pattern); exceptions
as `Except String`, carrying the exception text.
-/

namespace LlmToolsClojure

/-- Python truthiness is not needed beyond `Option.isSome`; a value written
into an outbound request dict is either a string or Python `None`. -/
inductive PyVal
  | str (s : String)
  | pyNone
deriving DecidableEq, Repr

/-- Convert the cached `_session` (an `Option String`) to the value stored
under the `"session"` key of the eval request dict, exactly as the dict
literal `{"op": "eval", "code": code, "session": self._session}` does:
`None` stays `None`, it is not dropped. -/
def optToPy : Option String → PyVal
  | some s => PyVal.str s
  | none => PyVal.pyNone

/-- An outbound request: the dict written with `conn.write({...})`,
as an ordered association list of key/value pairs. -/
abbrev Request := List (String × PyVal)

/-- The dict `{"op": "clone"}` written in `_get_connection`. -/
def cloneRequest : Request := [("op", PyVal.str "clone")]

/-- The dict `{"op": "eval", "code": code, "session": self._session}`
written in `eval_clojure`. -/
def evalRequest (code : String) (session : Option String) : Request :=
  [("op", PyVal.str "eval"), ("code", PyVal.str code), ("session", optToPy session)]

/-- An inbound nREPL message, with the fields the client inspects:
`value`, `out`, `err`, `status`, `new-session`. A field being `none`
models the key being absent from the decoded dict. -/
structure Message where
  value : Option String := none
  out : Option String := none
  err : Option String := none
  status : Option (List String) := none
  newSession : Option String := none
deriving DecidableEq, Repr

/-- `"status" in response and "done" in response["status"]`. -/
def Message.isDone (m : Message) : Bool :=
  match m.status with
  | some flags => flags.contains "done"
  | none => false

/-! ### Python string helpers used by `_read_nrepl_port` and the escapers -/

/-- The whitespace characters stripped by Python `str.strip()` with no
argument: space, tab, newline, carriage return, vertical tab, form feed. -/
def isPySpace (c : Char) : Bool :=
  c = ' ' || c = '\t' || c = '\n' || c = '\r' || c = Char.ofNat 11 || c = Char.ofNat 12

/-- Python `s.strip()`: drop leading and trailing whitespace. -/
def pyStrip (l : List Char) : List Char :=
  ((l.dropWhile isPySpace).reverse.dropWhile isPySpace).reverse

/-- Python `s.rstrip(x)` for a single-character argument: drop every
trailing occurrence of `x`. -/
def pyRstrip (x : Char) (l : List Char) : List Char :=
  (l.reverse.dropWhile (fun c => c = x)).reverse

/-- `f.read().strip().rstrip('%')` applied to the port file contents,
from `_read_nrepl_port`. -/
def parsePort (s : String) : String :=
  String.mk (pyRstrip '%' (pyStrip s.toList))

/-- Python `s.replace(search, repl)` for a single-character search string:
scan left to right, substituting every occurrence. -/
def pyReplace (search : Char) (repl : List Char) : List Char → List Char
  | [] => []
  | c :: cs =>
    if c = search then repl ++ pyReplace search repl cs
    else c :: pyReplace search repl cs

/-- `pattern.replace(chr(34), chr(92) ++ chr(34))` as in `apropos` and
`find_doc`: escape each double quote with a backslash. -/
def escapePattern (pattern : String) : String :=
  String.mk (pyReplace '"' ['\\', '"'] pattern.toList)

/-- The code string `apropos` builds and sends to `eval_clojure`. -/
def aproposCode (pattern : String) : String :=
  "(apropos \"" ++ escapePattern pattern ++ "\")"

/-- The code string `find_doc` builds and sends to `eval_clojure`. -/
def findDocCode (pattern : String) : String :=
  "(find-doc \"" ++ escapePattern pattern ++ "\")"

/-! ### Port discovery (`_read_nrepl_port`)

A directory is its list of path components listed leaf first (innermost
component at the head), so the filesystem root is `[]`, `os.path.dirname`
is `List.tail` (and the dirname of the root is the root itself, the loop
termination test `parent == current`), and `os.path.join dir file` is
`file :: dir`. The filesystem is a map from a full path to the contents
of the file there (`none` when `os.path.exists` is false). File reads
that succeed are modelled directly by the contents; the unreadable-file
branch of the source re-raises with a different text and is not needed by
any claim. -/

/-- The `while True` search loop of `_read_nrepl_port`: check
`current_dir/port_file`; if absent move to the parent, stopping when the
parent equals the current directory (only at the root `[]`, whose parent
is itself). Returns the raw file contents when found. -/
def searchUp (fs : List String → Option String) (portFile : String) :
    List String → Option String
  | [] => fs [portFile]
  | d :: ds =>
    match fs (portFile :: d :: ds) with
    | some contents => some contents
    | none => searchUp fs portFile ds

/-- The marker filename chosen from `repl_type` at the top of
`_read_nrepl_port`. -/
def portFileFor (replType : String) : String :=
  if replType = "cljs" then ".shadow-cljs/nrepl.port" else ".nrepl-port"

/-- The REPL name used in the failure message of `_read_nrepl_port`. -/
def replNameFor (replType : String) : String :=
  if replType = "cljs" then "ClojureScript" else "Clojure"

/-- `_read_nrepl_port`: walk upward from the working directory; on a hit,
return the stripped contents; if the root is reached without a hit, raise
the descriptive exception. -/
def read_nrepl_port (replType : String) (fs : List String → Option String)
    (cwd : List String) : Except String String :=
  let portFile := portFileFor replType
  match searchUp fs portFile cwd with
  | some contents => Except.ok (parsePort contents)
  | none => Except.error
      ("No " ++ portFile ++
        " file found in current directory or any parent directories. " ++
        "Make sure your " ++ replNameFor replType ++ " REPL is running.")

/-! ### Session state and connection establishment -/

/-- The mutable fields of a `ClojureREPL` instance: `repl_type`,
`_connection` (an opaque live connection, `none` when unset), `_session`. -/
structure ReplState where
  replType : String
  connection : Option Unit
  session : Option String
deriving DecidableEq, Repr

/-- `ClojureREPL.__init__`: reject a `repl_type` outside
`["clj", "cljs"]` with a `ValueError` before touching any connection or
filesystem state; otherwise store it (connection and session start unset,
the class-attribute defaults). -/
def ClojureREPL.init (replType : String) : Except String ReplState :=
  if replType = "clj" ∨ replType = "cljs" then
    Except.ok { replType := replType, connection := none, session := none }
  else
    Except.error "repl_type must be either \x27clj\x27 or \x27cljs\x27"

/-- The outside world one `eval_clojure` call interacts with: the
filesystem and working directory seen by port discovery, and each
network operation as its outcome (`Except.error e` models the operation
raising an exception whose text is `e`). `evalStream` is the sequence of
frames `conn.read()` will deliver inside the collection loop, each read
either decoding a message or raising. -/
structure World where
  fs : List String → Option String
  cwd : List String
  connect : Except String Unit
  cloneWrite : Except String Unit
  cloneRead : Except String Message
  evalWrite : Except String Unit
  evalStream : List (Except String Message)

/-- `_get_connection`: if `_connection` is set, return at once; otherwise
discover the port, connect (setting `_connection` before any clone
traffic, exactly as the source assigns `self._connection` first), write
`{op: "clone"}`, read one response and cache its `new-session` field.
Returns the outcome (an exception propagates to the caller), the mutated
instance state, and the list of requests written. -/
def getConnection (st : ReplState) (w : World) :
    Except String Unit × ReplState × List Request :=
  match st.connection with
  | some _ => (Except.ok (), st, [])
  | none =>
    match read_nrepl_port st.replType w.fs w.cwd with
    | Except.error e => (Except.error e, st, [])
    | Except.ok _port =>
      match w.connect with
      | Except.error e => (Except.error e, st, [])
      | Except.ok () =>
        let st := { st with connection := some () }
        match w.cloneWrite with
        | Except.error e => (Except.error e, st, [cloneRequest])
        | Except.ok () =>
          match w.cloneRead with
          | Except.error e => (Except.error e, st, [cloneRequest])
          | Except.ok resp =>
            (Except.ok (), { st with session := resp.newSession }, [cloneRequest])

/-! ### The eval collection loop and formatter -/

/-- Outcome of the `while True` read loop of `eval_clojure`: the three
accumulated lists on a `done` status, the exception text when a read
raises, or `hang` when the modelled stream is exhausted without either
(the source would block forever on the next read). -/
inductive CollectOutcome
  | done (results outputs errors : List String)
  | raised (e : String)
  | hang
deriving DecidableEq, Repr

/-- The collection loop: read one frame, append `value`/`out`/`err` when
present, stop when `status` contains `done`. -/
def collect : List (Except String Message) →
    List String → List String → List String → CollectOutcome
  | [], _, _, _ => CollectOutcome.hang
  | Except.error e :: _, _, _, _ => CollectOutcome.raised e
  | Except.ok m :: rest, results, outputs, errors =>
    let results := match m.value with | some v => results ++ [v] | none => results
    let outputs := match m.out with | some v => outputs ++ [v] | none => outputs
    let errors := match m.err with | some v => errors ++ [v] | none => errors
    if m.isDone then CollectOutcome.done results outputs errors
    else collect rest results outputs errors

/-- The response formatting block at the end of `eval_clojure`:
`Output:\n` + outputs joined with no separator, `Result: ` + values
joined by single spaces, `Errors:\n` + errors joined with no separator,
the non-empty sections joined by one newline in that fixed order, with a
sentinel when every section is empty. -/
def formatResult (results outputs errors : List String) : String :=
  let parts : List String :=
    (if outputs.isEmpty then [] else ["Output:\n" ++ String.join outputs]) ++
    (if results.isEmpty then [] else ["Result: " ++ String.intercalate " " results]) ++
    (if errors.isEmpty then [] else ["Errors:\n" ++ String.join errors])
  if parts.isEmpty then "Evaluation completed with no output"
  else String.intercalate "\n" parts

/-- `eval_clojure`: ensure the connection, write the eval request (with
the `session` key always present, holding the cached `_session` value),
collect frames until `done`, format; any exception anywhere in the `try`
block is caught and rendered as the tagged error string. The result is
`none` only when the loop would block forever. Also returns the mutated
state and the requests written during the call. -/
def eval_clojure (st : ReplState) (w : World) (code : String) :
    Option String × ReplState × List Request :=
  match getConnection st w with
  | (Except.error e, st, tr) =>
    (some ("Error evaluating Clojure code: " ++ e), st, tr)
  | (Except.ok (), st, tr) =>
    let req := evalRequest code st.session
    match w.evalWrite with
    | Except.error e =>
      (some ("Error evaluating Clojure code: " ++ e), st, tr ++ [req])
    | Except.ok () =>
      match collect w.evalStream [] [] [] with
      | CollectOutcome.hang => (none, st, tr ++ [req])
      | CollectOutcome.raised e =>
        (some ("Error evaluating Clojure code: " ++ e), st, tr ++ [req])
      | CollectOutcome.done results outputs errors =>
        (some (formatResult results outputs errors), st, tr ++ [req])

/-- `_close_connection`: when a connection is live, close it (`closeOp`
is the outcome of `self._connection.close()`; on an exception the cached
fields are left as they were and the tagged error text is returned),
clear both cached fields and report success; otherwise report the
distinct no-op text. -/
def close_connection (st : ReplState) (closeOp : Except String Unit) :
    String × ReplState :=
  match st.connection with
  | some _ =>
    match closeOp with
    | Except.error e => ("Error closing connection: " ++ e, st)
    | Except.ok () =>
      ("nREPL connection closed", { st with connection := none, session := none })
  | none => ("No active connection to close", st)

/-! ### General lemmas about the embedding -/

/-- A hit in the current directory ends the walk at once. -/
theorem searchUp_found (fs : List String → Option String) (portFile : String)
    (dir : List String) (contents : String)
    (h : fs (portFile :: dir) = some contents) :
    searchUp fs portFile dir = some contents := by
  cases dir with
  | nil => simpa [searchUp] using h
  | cons d ds => simp [searchUp, h]

/-- When no directory on the walk (the suffixes of the starting
directory, leaf-first) holds the marker file, the walk fails. -/
theorem searchUp_none (fs : List String → Option String) (portFile : String)
    (cwd : List String)
    (h : ∀ t, t <:+ cwd → fs (portFile :: t) = none) :
    searchUp fs portFile cwd = none := by
  induction cwd with
  | nil => simpa [searchUp] using h [] List.suffix_rfl
  | cons d ds ih =>
    have hd : fs (portFile :: d :: ds) = none := h (d :: ds) List.suffix_rfl
    have ht : ∀ t, t <:+ ds → fs (portFile :: t) = none := fun t hts =>
      h t (hts.trans (List.suffix_cons d ds))
    simp [searchUp, hd, ih ht]

/-- When the marker sits in an ancestor `a` and in no directory strictly
below it on the path `b` down to the start, the walk returns the
ancestor's file. -/
theorem searchUp_ancestor (fs : List String → Option String) (portFile : String)
    (a b : List String) (contents : String)
    (ha : fs (portFile :: a) = some contents)
    (hb : ∀ t, t ≠ [] → t <:+ b → fs (portFile :: (t ++ a)) = none) :
    searchUp fs portFile (b ++ a) = some contents := by
  induction b with
  | nil => simpa using searchUp_found fs portFile a contents ha
  | cons x bs ih =>
    have hx : fs (portFile :: (x :: bs) ++ a) = none := by
      simpa using hb (x :: bs) (by simp) List.suffix_rfl
    have ih' := ih (fun t ht hts => hb t ht (hts.trans (List.suffix_cons x bs)))
    simp only [List.cons_append, searchUp, List.append_eq]
    rw [show portFile :: x :: (bs ++ a) = portFile :: (x :: bs) ++ a from rfl, hx]
    exact ih'

/-- The state and trace of `eval_clojure` when the connection phase
succeeds: the post-connection state is kept through every branch of the
collection loop, and the eval request is appended to the trace. -/
theorem eval_clojure_snd_ok (st : ReplState) (w : World) (code : String)
    (st' : ReplState) (tr : List Request)
    (h : getConnection st w = (Except.ok (), st', tr)) :
    (eval_clojure st w code).2 = (st', tr ++ [evalRequest code st'.session]) := by
  unfold eval_clojure
  rw [h]
  cases w.evalWrite with
  | error e => rfl
  | ok u => cases u; cases collect w.evalStream [] [] [] <;> rfl

/-- The result of `eval_clojure` when the connection phase raises. -/
theorem eval_clojure_conn_error (st : ReplState) (w : World) (code e : String)
    (st' : ReplState) (tr : List Request)
    (h : getConnection st w = (Except.error e, st', tr)) :
    eval_clojure st w code =
      (some ("Error evaluating Clojure code: " ++ e), st', tr) := by
  unfold eval_clojure
  rw [h]

/-- `getConnection` on a fresh state, when discovery, connect, the clone
write and the clone read all succeed. -/
theorem getConnection_fresh (st : ReplState) (w : World) (p : String) (m : Message)
    (hconn : st.connection = none)
    (hp : read_nrepl_port st.replType w.fs w.cwd = Except.ok p)
    (hc : w.connect = Except.ok ())
    (hcw : w.cloneWrite = Except.ok ())
    (hcr : w.cloneRead = Except.ok m) :
    getConnection st w =
      (Except.ok (),
        { st with connection := some (), session := m.newSession },
        [cloneRequest]) := by
  unfold getConnection
  rw [hconn, hp, hc, hcw, hcr]

/-- `getConnection` on a state that already holds a connection: no
request is written and nothing changes. -/
theorem getConnection_cached (st : ReplState) (w : World) (u : Unit)
    (hconn : st.connection = some u) :
    getConnection st w = (Except.ok (), st, []) := by
  unfold getConnection
  rw [hconn]

/-- The collection loop hits a raising read after a prefix of frames none
of which is terminal: the exception wins, whatever was accumulated. -/
theorem collect_raises (msgs : List Message) (e : String)
    (rest : List (Except String Message))
    (results outputs errors : List String)
    (h : ∀ m ∈ msgs, m.isDone = false) :
    collect (msgs.map Except.ok ++ Except.error e :: rest)
      results outputs errors = CollectOutcome.raised e := by
  induction msgs generalizing results outputs errors with
  | nil => rfl
  | cons m ms ih =>
    have hm : m.isDone = false := h m (by simp)
    have hms : ∀ x ∈ ms, x.isDone = false := fun x hx => h x (by simp [hx])
    simp only [List.map_cons, List.cons_append, collect, hm]
    exact ih _ _ _ hms

/-- Python `str.replace` with the one-character search `chr(34)`
rewrites exactly the double quotes and copies every other character. -/
theorem pyReplace_quote_eq_flatMap (l : List Char) :
    pyReplace '"' ['\\', '"'] l =
      l.flatMap (fun c => if c = '"' then ['\\', '"'] else [c]) := by
  induction l with
  | nil => rfl
  | cons c cs ih =>
    by_cases hc : c = '"' <;> simp [pyReplace, hc, ih]

/-! ### The claims -/

/-- Fixture: a filesystem whose only file is `.nrepl-port` at the root,
holding a port number. -/
def fsDemo : List String → Option String :=
  fun p => if p = [".nrepl-port"] then some "7777\n" else none

/-- Fixture: a fresh `ClojureREPL("clj")` instance. -/
def stFresh : ReplState := { replType := "clj", connection := none, session := none }

/-- Fixture: an instance whose connection phase already completed with
session id `S1`. -/
def stLive : ReplState := { replType := "clj", connection := some (), session := some "S1" }

/-- Fixture: a world whose server answers the clone with a message that
has no `new-session` field, then answers the eval with a bare `done`. -/
def noSessionWorld : World :=
  { fs := fsDemo, cwd := [],
    connect := Except.ok (), cloneWrite := Except.ok (),
    cloneRead := Except.ok {},
    evalWrite := Except.ok (),
    evalStream := [Except.ok { status := some ["done"] }] }

/-- C5: port discovery walks upward from the working directory: when the
marker file sits only in an ancestor `a` (every directory strictly below
it, the non-empty suffix chain of `b`, lacks the file), discovery started
at `b ++ a` returns the port read in `a`; when no directory on the walk
up to the root holds the file, discovery fails with the exception that
names the searched filename and the hint that the REPL must be running. -/
theorem c5_upward_search_and_failure :
    (∀ (fs : List String → Option String) (replType : String)
        (a b : List String) (contents : String),
        fs (portFileFor replType :: a) = some contents →
        (∀ t, t ≠ [] → t <:+ b → fs (portFileFor replType :: (t ++ a)) = none) →
        read_nrepl_port replType fs (b ++ a) = Except.ok (parsePort contents)) ∧
    (∀ (fs : List String → Option String) (replType : String) (cwd : List String),
        (∀ t, t <:+ cwd → fs (portFileFor replType :: t) = none) →
        read_nrepl_port replType fs cwd = Except.error
          ("No " ++ portFileFor replType ++
            " file found in current directory or any parent directories. " ++
            "Make sure your " ++ replNameFor replType ++ " REPL is running.")) := by
  constructor
  · intro fs replType a b contents ha hb
    simp only [read_nrepl_port]
    rw [searchUp_ancestor fs (portFileFor replType) a b contents ha hb]
  · intro fs replType cwd h
    simp only [read_nrepl_port]
    rw [searchUp_none fs (portFileFor replType) cwd h]

/-- Fixture: a filesystem with the marker only in the ancestor `A` of the
nested directories `A/B/C` (directories leaf-first). -/
def fsA : List String → Option String :=
  fun p => if p = [".nrepl-port", "A"] then some "4242\n" else none

/-- Witness for C5 at the concrete `A/B/C` layout of the spec and at an
empty filesystem. -/
theorem c5_witness :
    read_nrepl_port "clj" fsA ["C", "B", "A"] = Except.ok "4242" ∧
    read_nrepl_port "clj" (fun _ => none) ["C"] = Except.error
      ("No .nrepl-port file found in current directory or any parent " ++
        "directories. Make sure your Clojure REPL is running.") := by
  constructor
  · have h := c5_upward_search_and_failure.1 fsA "clj" ["A"] ["C", "B"] "4242\n"
      (by decide)
      (fun t ht hts => by
        have hmem : t ∈ List.tails ["C", "B"] := (List.mem_tails _ _).mpr hts
        fin_cases hmem
        · decide
        · decide
        · exact absurd rfl ht)
    simpa using h
  · have h := c5_upward_search_and_failure.2 (fun _ => none) "clj" ["C"]
      (fun t _ => rfl)
    simpa using h

/-- C6: the locator turns the raw port-file contents into the port by
stripping surrounding whitespace and then trailing percent signs:
the three sample contents all yield the port string 12345, both through
the stripping pipeline itself and through `_read_nrepl_port` reading a
file with those contents in the working directory. -/
theorem c6_port_stripping :
    parsePort "12345\n" = "12345" ∧
    parsePort "12345%" = "12345" ∧
    parsePort "  12345  " = "12345" ∧
    read_nrepl_port "clj"
      (fun p => if p = [".nrepl-port"] then some "12345\n" else none) [] =
      Except.ok "12345" ∧
    read_nrepl_port "clj"
      (fun p => if p = [".nrepl-port"] then some "12345%" else none) [] =
      Except.ok "12345" ∧
    read_nrepl_port "clj"
      (fun p => if p = [".nrepl-port"] then some "  12345  " else none) [] =
      Except.ok "12345" :=
  ⟨rfl, rfl, rfl, rfl, rfl, rfl⟩

/-- C7: with a live connection, the first close returns the success text
and clears both the cached connection and the cached session; the second
close on the resulting state returns the distinct no-op text and is not
an error. -/
theorem c7_idempotent_close (st : ReplState) (u : Unit)
    (hconn : st.connection = some u) :
    close_connection st (Except.ok ()) =
      ("nREPL connection closed",
        { st with connection := none, session := none }) ∧
    (close_connection (close_connection st (Except.ok ())).2 (Except.ok ())).1 =
      "No active connection to close" ∧
    (close_connection (close_connection st (Except.ok ())).2 (Except.ok ())).2 =
      { st with connection := none, session := none } := by
  unfold close_connection
  rw [hconn]
  exact ⟨rfl, rfl, rfl⟩

/-- Witness for C7 at a concrete live state. -/
theorem c7_witness :
    close_connection stLive (Except.ok ()) =
      ("nREPL connection closed",
        { stLive with connection := none, session := none }) ∧
    (close_connection (close_connection stLive (Except.ok ())).2
        (Except.ok ())).1 = "No active connection to close" ∧
    (close_connection (close_connection stLive (Except.ok ())).2
        (Except.ok ())).2 =
      { stLive with connection := none, session := none } :=
  c7_idempotent_close stLive () rfl

/-- C9: the constructor rejects any `repl_type` other than the two
accepted strings with the `ValueError` text — the check involves no
filesystem or network input at all, so it fires before any connection or
port-discovery work — and for the two accepted strings it succeeds,
storing the given `repl_type` with connection and session unset. -/
theorem c9_init_validation :
    (∀ s : String, s ≠ "clj" → s ≠ "cljs" →
      ClojureREPL.init s =
        Except.error "repl_type must be either \x27clj\x27 or \x27cljs\x27") ∧
    ClojureREPL.init "clj" =
      Except.ok { replType := "clj", connection := none, session := none } ∧
    ClojureREPL.init "cljs" =
      Except.ok { replType := "cljs", connection := none, session := none } := by
  refine ⟨fun s h1 h2 => ?_, rfl, rfl⟩
  simp [ClojureREPL.init, h1, h2]

/-- Witness for C9 at the concrete rejected string `foo`. -/
theorem c9_witness :
    ClojureREPL.init "foo" =
      Except.error "repl_type must be either \x27clj\x27 or \x27cljs\x27" :=
  c9_init_validation.1 "foo" (by decide) (by decide)

/-- C10: the `apropos`/`find_doc` escaping rewrites exactly the double
quotes of the pattern (each to backslash-quote) and passes every other
character through unchanged; a pattern without double quotes — e.g. one
holding a backslash — is embedded verbatim between the literal quotes of
the generated expression. -/
theorem c10_escaping :
    (∀ p : String, (escapePattern p).toList =
      p.toList.flatMap (fun c => if c = '"' then ['\\', '"'] else [c])) ∧
    (∀ p : String, (∀ c ∈ p.toList, c ≠ '"') → escapePattern p = p) ∧
    aproposCode "a\\" = "(apropos \"a\\\")" ∧
    findDocCode "a\\" = "(find-doc \"a\\\")" ∧
    aproposCode "he said \"hi\"" = "(apropos \"he said \\\"hi\\\"\")" := by
  have key : ∀ p : String, (escapePattern p).toList =
      p.toList.flatMap (fun c => if c = '"' then ['\\', '"'] else [c]) := by
    intro p
    simp [escapePattern, pyReplace_quote_eq_flatMap]
  have hlist : ∀ l : List Char, (∀ c ∈ l, c ≠ '"') →
      l.flatMap (fun c => if c = '"' then ['\\', '"'] else [c]) = l := by
    intro l
    induction l with
    | nil => intro _; rfl
    | cons c cs ih =>
      intro hl
      have hc : c ≠ '"' := hl c (by simp)
      have ihs := ih (fun x hx => hl x (by simp [hx]))
      simp [hc, ihs]
  refine ⟨key, fun p h => ?_, by decide, by decide, by decide⟩
  have h2 : pyReplace '"' ['\\', '"'] p.toList = p.toList := by
    rw [pyReplace_quote_eq_flatMap]
    exact hlist p.toList h
  unfold escapePattern
  rw [h2]
  rfl

/-- Witness for C10 at a concrete quote-free pattern. -/
theorem c10_witness : escapePattern "abc" = "abc" :=
  c10_escaping.2.1 "abc" (by decide)

/-- C1, counterexample to the claim as stated: with a clone response that
carries no `new-session` field, the session indeed stays unset, but the
eval request the engine then writes does NOT omit the `session` field —
it contains a `session` entry holding the Python `None` value. -/
theorem c1_counterexample :
    (eval_clojure stFresh noSessionWorld "(+ 1 2)").2.1.session = none ∧
    (eval_clojure stFresh noSessionWorld "(+ 1 2)").2.2 =
      [cloneRequest, evalRequest "(+ 1 2)" none] ∧
    ¬ (∀ kv ∈ evalRequest "(+ 1 2)" none, kv.1 ≠ "session") ∧
    ("session", PyVal.pyNone) ∈ evalRequest "(+ 1 2)" none := by
  refine ⟨rfl, rfl, ?_, by decide⟩
  intro hall
  exact hall ("session", PyVal.pyNone) (by decide) rfl

/-- C1 as amended: when the clone response has no `new-session` field the
SessionId remains unset, and the eval request the engine writes carries a
`session` entry bound to the null value — the field is present, not
omitted. -/
theorem c1_session_field_present (st : ReplState) (w : World)
    (code p : String) (m : Message)
    (hconn : st.connection = none)
    (hp : read_nrepl_port st.replType w.fs w.cwd = Except.ok p)
    (hc : w.connect = Except.ok ())
    (hcw : w.cloneWrite = Except.ok ())
    (hcr : w.cloneRead = Except.ok m)
    (hm : m.newSession = none) :
    (eval_clojure st w code).2.1.session = none ∧
    (eval_clojure st w code).2.2 = [cloneRequest, evalRequest code none] ∧
    ("session", PyVal.pyNone) ∈ evalRequest code none := by
  have h1 := getConnection_fresh st w p m hconn hp hc hcw hcr
  rw [hm] at h1
  have e1 := eval_clojure_snd_ok st w code _ _ h1
  have hst : (eval_clojure st w code).2.1 =
      { st with connection := some (), session := none } := by
    have := congrArg Prod.fst e1
    simpa using this
  refine ⟨?_, ?_, ?_⟩
  · rw [hst]
  · have := congrArg Prod.snd e1
    simpa using this
  · simp [evalRequest, optToPy]

/-- Witness for C1 at the concrete fixtures. -/
theorem c1_witness :
    (eval_clojure stFresh noSessionWorld "(+ 3 4)").2.1.session = none ∧
    (eval_clojure stFresh noSessionWorld "(+ 3 4)").2.2 =
      [cloneRequest, evalRequest "(+ 3 4)" none] ∧
    ("session", PyVal.pyNone) ∈ evalRequest "(+ 3 4)" none :=
  c1_session_field_present stFresh noSessionWorld "(+ 3 4)" "7777" {}
    rfl rfl rfl rfl rfl rfl

/-- C2: on the inbound sequence out a, value 1, out b, done, the call
returns the Output section (outputs concatenated with no separator)
followed after exactly one newline by the Result section, and no Errors
section. -/
theorem c2_aggregation_order (st : ReplState) (w : World) (code : String)
    (u : Unit)
    (hconn : st.connection = some u)
    (hw : w.evalWrite = Except.ok ())
    (hs : w.evalStream =
      [Except.ok { out := some "a" }, Except.ok { value := some "1" },
        Except.ok { out := some "b" }, Except.ok { status := some ["done"] }]) :
    (eval_clojure st w code).1 =
      some ("Output:\n" ++ "ab" ++ "\n" ++ "Result: " ++ "1") := by
  unfold eval_clojure
  rw [getConnection_cached st w u hconn, hw, hs]
  rfl

/-- Witness for C2 at the concrete fixtures. -/
theorem c2_witness :
    (eval_clojure stLive
      { noSessionWorld with evalStream :=
        [Except.ok { out := some "a" }, Except.ok { value := some "1" },
          Except.ok { out := some "b" },
          Except.ok { status := some ["done"] }] } "x").1 =
      some ("Output:\n" ++ "ab" ++ "\n" ++ "Result: " ++ "1") :=
  c2_aggregation_order stLive _ "x" () rfl rfl rfl

/-- C3: every failure inside `eval_clojure` — the connection phase (port
discovery, connect, clone write, clone read) raising, the eval write
raising, or a read raising mid-stream — yields a returned string with the
fixed tag, never an escaped exception; in the mid-stream case the result
is the tagged exception text alone, independent of the frames already
collected, so the discarded partial aggregation never appears in it. -/
theorem c3_failures_become_text :
    (∀ (st : ReplState) (w : World) (code e : String) (st' : ReplState)
        (tr : List Request),
        getConnection st w = (Except.error e, st', tr) →
        (eval_clojure st w code).1 =
          some ("Error evaluating Clojure code: " ++ e)) ∧
    (∀ (st : ReplState) (w : World) (code e : String) (u : Unit),
        st.connection = some u → w.evalWrite = Except.error e →
        (eval_clojure st w code).1 =
          some ("Error evaluating Clojure code: " ++ e)) ∧
    (∀ (st : ReplState) (w : World) (code e : String) (u : Unit)
        (msgs : List Message) (rest : List (Except String Message)),
        st.connection = some u → w.evalWrite = Except.ok () →
        w.evalStream = msgs.map Except.ok ++ Except.error e :: rest →
        (∀ m ∈ msgs, m.isDone = false) →
        (eval_clojure st w code).1 =
          some ("Error evaluating Clojure code: " ++ e)) := by
  refine ⟨fun st w code e st' tr h => ?_, fun st w code e u hconn hew => ?_,
    fun st w code e u msgs rest hconn hew hs hnd => ?_⟩
  · rw [eval_clojure_conn_error st w code e st' tr h]
  · unfold eval_clojure
    rw [getConnection_cached st w u hconn, hew]
  · unfold eval_clojure
    rw [getConnection_cached st w u hconn, hew, hs,
      collect_raises msgs e rest [] [] [] hnd]

/-- Witness for C3: a mid-stream read failure after an out and a value
frame; the partial output is absent from the returned text. -/
theorem c3_witness :
    (eval_clojure stLive
      { noSessionWorld with evalStream :=
        [Except.ok { out := some "partial out" },
          Except.ok { value := some "partial value" },
          Except.error "socket closed"] } "x").1 =
      some ("Error evaluating Clojure code: " ++ "socket closed") :=
  c3_failures_become_text.2.2 stLive _ "x" "socket closed" ()
    [{ out := some "partial out" }, { value := some "partial value" }] []
    rfl rfl rfl (by decide)

/-- C4: starting from a fresh instance, two sequential `eval_clojure`
calls write exactly one clone request in total — the full request trace
is one clone followed by the two eval requests — and both eval requests
carry the same session id, the one from the single clone response; the
second call leaves the cached session untouched. -/
theorem c4_session_reuse (st : ReplState) (w₁ w₂ : World)
    (code₁ code₂ p : String) (m : Message)
    (hconn : st.connection = none)
    (hp : read_nrepl_port st.replType w₁.fs w₁.cwd = Except.ok p)
    (hc : w₁.connect = Except.ok ())
    (hcw : w₁.cloneWrite = Except.ok ())
    (hcr : w₁.cloneRead = Except.ok m) :
    (eval_clojure st w₁ code₁).2.2 ++
        (eval_clojure (eval_clojure st w₁ code₁).2.1 w₂ code₂).2.2 =
      [cloneRequest, evalRequest code₁ m.newSession,
        evalRequest code₂ m.newSession] ∧
    List.count cloneRequest
      ((eval_clojure st w₁ code₁).2.2 ++
        (eval_clojure (eval_clojure st w₁ code₁).2.1 w₂ code₂).2.2) = 1 ∧
    (eval_clojure st w₁ code₁).2.1.session = m.newSession ∧
    (eval_clojure (eval_clojure st w₁ code₁).2.1 w₂ code₂).2.1.session =
      m.newSession := by
  have h1 := getConnection_fresh st w₁ p m hconn hp hc hcw hcr
  have e1 := eval_clojure_snd_ok st w₁ code₁ _ _ h1
  have hst1 : (eval_clojure st w₁ code₁).2.1 =
      { st with connection := some (), session := m.newSession } := by
    have := congrArg Prod.fst e1
    simpa using this
  have htr1 : (eval_clojure st w₁ code₁).2.2 =
      [cloneRequest, evalRequest code₁ m.newSession] := by
    have := congrArg Prod.snd e1
    simpa using this
  have h2 := getConnection_cached
    { st with connection := some (), session := m.newSession } w₂ () rfl
  have e2 := eval_clojure_snd_ok _ w₂ code₂ _ _ h2
  have hst2 : (eval_clojure
      { st with connection := some (), session := m.newSession }
        w₂ code₂).2.1 =
      { st with connection := some (), session := m.newSession } := by
    have := congrArg Prod.fst e2
    simpa using this
  have htr2 : (eval_clojure
      { st with connection := some (), session := m.newSession }
        w₂ code₂).2.2 = [evalRequest code₂ m.newSession] := by
    have := congrArg Prod.snd e2
    simpa using this
  rw [hst1, htr1, htr2, hst2]
  refine ⟨rfl, ?_, rfl, rfl⟩
  have hne : ∀ (c : String) (s : Option String),
      evalRequest c s ≠ cloneRequest := by
    intro c s h
    simpa [evalRequest, cloneRequest] using congrArg List.length h
  simp only [List.count_cons, List.count_nil, List.count_append]
  simp [hne code₁ m.newSession, hne code₂ m.newSession]

/-- Witness for C4 at the concrete fixtures (the clone response carries
session id `S9`). -/
theorem c4_witness :
    (eval_clojure stFresh
        { noSessionWorld with
            cloneRead := Except.ok { newSession := some "S9" } } "a").2.2 ++
      (eval_clojure
        (eval_clojure stFresh
          { noSessionWorld with
              cloneRead := Except.ok { newSession := some "S9" } } "a").2.1
        noSessionWorld "b").2.2 =
      [cloneRequest, evalRequest "a" (some "S9"),
        evalRequest "b" (some "S9")] :=
  (c4_session_reuse stFresh
    { noSessionWorld with cloneRead := Except.ok { newSession := some "S9" } }
    noSessionWorld "a" "b" "7777" { newSession := some "S9" }
    rfl rfl rfl rfl rfl).1

/-- C8: an exchange whose only inbound frame is a bare `done` status — no
output, no value, no error — returns the fixed non-empty sentinel. -/
theorem c8_empty_sentinel (st : ReplState) (w : World) (code : String)
    (u : Unit)
    (hconn : st.connection = some u)
    (hw : w.evalWrite = Except.ok ())
    (hs : w.evalStream = [Except.ok { status := some ["done"] }]) :
    (eval_clojure st w code).1 = some "Evaluation completed with no output" ∧
    "Evaluation completed with no output" ≠ "" := by
  refine ⟨?_, by decide⟩
  unfold eval_clojure
  rw [getConnection_cached st w u hconn, hw, hs]
  rfl

/-- Witness for C8 at the concrete fixtures. -/
theorem c8_witness :
    (eval_clojure stLive noSessionWorld "x").1 =
      some "Evaluation completed with no output" :=
  (c8_empty_sentinel stLive noSessionWorld "x" () rfl rfl rfl).1

end LlmToolsClojure
